import Mathlib

/-!
Shallow embedding of the CarLease lease state machine
(repository sebasell/TTM4195-CarLease).

The repository contains two Solidity variants of the contract:

* `src/contracts/CarLease.sol` — the main variant; its public operations
  are embedded in namespace `CarLease.Contracts`.
* `src/CarLease.sol` — the "hardened" variant; the operations relevant to
  the claims (`commitToSign`, `confirmLease`) are embedded in namespace
  `CarLease.Hardened`.

Modelling conventions:

* Addresses, hashes (bytes32) and wei amounts are `Nat`; address 0 and
  the zero hash are the Solidity zero values.
* Timestamps are `Nat` seconds.  Solidity 0.8 checked arithmetic on
  `block.timestamp - lease.startTime` is modelled by an explicit
  underflow branch that aborts the call, exactly where the source
  subtracts.
* `keccak256(abi.encodePacked(tokenId, secret, msg.sender))` is an
  external primitive; it is abstracted as an explicit function argument
  `hashFn : Nat → Nat → Nat → Nat` of `revealAndPay`.
* Every state-changing function of the source touches the records of a
  single `tokenId` only (all storage accesses are point lookups keyed by
  the argument token), so the state is modelled per slot: one
  `CarMetadata`-existence flag, one `Lease`, one `Commit`.  The ERC721
  facts used by the source (`_ownerOf(tokenId) != address(0)` and
  `ownerOf(tokenId) == address(this)`) are the booleans `tokenMinted`
  and `contractOwnsToken`.
* A call either reverts — `Except.error` carrying the source revert
  string — or succeeds returning the new state together with the list of
  outgoing ether transfers `(recipient, amount)` the call performs.
-/

namespace CarLease

/-- REVEAL_WINDOW = 7 days, in seconds. -/
def REVEAL_WINDOW : Nat := 604800

/-- CONFIRM_WINDOW = 7 days, in seconds. -/
def CONFIRM_WINDOW : Nat := 604800

/-- PAYMENT_GRACE = 45 days, in seconds. -/
def PAYMENT_GRACE : Nat := 3888000

/-- The 30-day billing period used by `makeMonthlyPayment` and
`claimDeposit` (`30 days` in the source), in seconds. -/
def THIRTY_DAYS : Nat := 2592000

/-- The `Lease` struct of both contract variants (identical fields).
The source field `exists` is a reserved token in Lean and is rendered
`lexists`. -/
structure Lease where
  lessee : Nat
  startTime : Nat
  durationMonths : Nat
  monthlyPayment : Nat
  deposit : Nat
  paymentsMade : Nat
  lastPaymentTime : Nat
  active : Bool
  lexists : Bool
  confirmDeadline : Nat
deriving Repr, DecidableEq

/-- The all-zero `Lease`, the value of a deleted / never-written
mapping entry. -/
def Lease.empty : Lease :=
  ⟨0, 0, 0, 0, 0, 0, 0, false, false, 0⟩

/-- The `Commit` struct of both contract variants. -/
structure Commit where
  commitment : Nat
  committer : Nat
  deadline : Nat
deriving Repr, DecidableEq

/-- The all-zero `Commit`, the value of a deleted / never-written
mapping entry. -/
def Commit.empty : Commit :=
  ⟨0, 0, 0⟩

/-- Per-slot state of the `src/contracts/CarLease.sol` variant:
the contract owner (dealer), the ERC721 facts for this token, and this
token's entries of the `leases` and `commits` mappings. -/
structure SlotState where
  owner : Nat
  tokenMinted : Bool
  contractOwnsToken : Bool
  lease : Lease
  commit : Commit
deriving Repr, DecidableEq

/-- Decidable equality of call results (used to evaluate the embedded
operations on concrete states). -/
instance {ε α : Type} [DecidableEq ε] [DecidableEq α] :
    DecidableEq (Except ε α) := fun a b =>
  match a, b with
  | .error e, .error f =>
    if h : e = f then .isTrue (by rw [h]) else .isFalse (by simp [h])
  | .ok x, .ok y =>
    if h : x = y then .isTrue (by rw [h]) else .isFalse (by simp [h])
  | .error _, .ok _ => .isFalse (by simp)
  | .ok _, .error _ => .isFalse (by simp)

/-- Result of a call: revert string, or new state plus the outgoing
ether transfers `(recipient, amount)` made by the call. -/
abbrev CResult := Except String (SlotState × List (Nat × Nat))

/-- State of a slot on a freshly deployed contract: token not minted,
no lease, no commitment. -/
def initState (owner : Nat) : SlotState :=
  { owner := owner
    tokenMinted := false
    contractOwnsToken := false
    lease := Lease.empty
    commit := Commit.empty }

namespace Contracts

/-- Embedding of `mintOption` (src/contracts/CarLease.sol, lines
280-320) restricted to one slot.  String arguments are represented by
their byte lengths.  The guard `tokenMinted = false` encodes the
freshness of `_nextTokenId++`: a given tokenId is minted at most once. -/
def mintOption (sender modelLen colorLen year originalValueWei monthlyPaymentWei
    durationMonths mileageLimit : Nat) (s : SlotState) : CResult :=
  if ¬ sender = s.owner then .error "OwnableUnauthorizedAccount"
  else if ¬ 0 < modelLen then .error "Model cannot be empty"
  else if ¬ 0 < originalValueWei then .error "Original value must be greater than zero"
  else if ¬ 0 < monthlyPaymentWei then .error "Monthly payment must be greater than zero"
  else if ¬ 0 < durationMonths then .error "Duration must be greater than zero"
  else if s.tokenMinted then .error "Token already minted"
  else
    let _ := (colorLen, year, mileageLimit)
    .ok ({ s with tokenMinted := true, contractOwnsToken := true }, [])

/-- Embedding of `commitToLease` (src/contracts/CarLease.sol, lines
332-350).  Note: the source stores the new commitment without inspecting
the existing one. -/
def commitToLease (sender now commitment : Nat) (s : SlotState) : CResult :=
  if ¬ s.tokenMinted then .error "Token does not exist"
  else if ¬ s.contractOwnsToken then .error "Contract must own token"
  else if s.lease.lexists then .error "Already leased"
  else .ok ({ s with commit := ⟨commitment, sender, now + REVEAL_WINDOW⟩ }, [])

/-- Embedding of `revealAndPay` (src/contracts/CarLease.sol, lines
360-414).  `value` is `msg.value`; `hashFn` abstracts
`keccak256(abi.encodePacked(tokenId, secret, msg.sender))`. -/
def revealAndPay (hashFn : Nat → Nat → Nat → Nat)
    (sender now value tokenId secret durationMonths monthlyPaymentWei : Nat)
    (s : SlotState) : CResult :=
  if ¬ s.tokenMinted then .error "Token does not exist"
  else if ¬ s.contractOwnsToken then .error "Contract must own token"
  else if ¬ now ≤ s.commit.deadline then .error "Commitment expired"
  else if ¬ hashFn tokenId secret sender = s.commit.commitment then .error "Invalid secret"
  else if s.lease.lexists then .error "Already leased"
  else if ¬ value = monthlyPaymentWei * 3 then .error "Incorrect deposit"
  else
    .ok ({ s with
            lease :=
              { lessee := sender
                startTime := 0
                durationMonths := durationMonths
                monthlyPayment := monthlyPaymentWei
                deposit := value
                paymentsMade := 0
                lastPaymentTime := 0
                active := false
                lexists := true
                confirmDeadline := now + CONFIRM_WINDOW }
            commit := Commit.empty }, [])

/-- Embedding of `confirmLease` (src/contracts/CarLease.sol, lines
425-444).  The source checks no deadline and does not touch
`lastPaymentTime`. -/
def confirmLease (sender now : Nat) (s : SlotState) : CResult :=
  if ¬ sender = s.owner then .error "OwnableUnauthorizedAccount"
  else if ¬ s.lease.lexists then .error "Lease does not exist"
  else if s.lease.active then .error "Already confirmed"
  else .ok ({ s with lease := { s.lease with active := true, startTime := now } }, [])

/-- Embedding of `makeMonthlyPayment` (src/contracts/CarLease.sol,
lines 455-485).  The received ether stays in the contract (the source
performs no transfer in this function). -/
def makeMonthlyPayment (sender now value : Nat) (s : SlotState) : CResult :=
  if ¬ s.lease.lexists then .error "Lease does not exist"
  else if ¬ s.lease.active then .error "Lease not active"
  else if ¬ sender = s.lease.lessee then .error "Only lessee can pay"
  else if ¬ value = s.lease.monthlyPayment then .error "Incorrect payment amount"
  else if now < s.lease.startTime then .error "arithmetic underflow"
  else if ¬ s.lease.paymentsMade < (now - s.lease.startTime) / THIRTY_DAYS then
    .error "Payment not due"
  else
    .ok ({ s with lease :=
            { s.lease with paymentsMade := s.lease.paymentsMade + 1, lastPaymentTime := now } }, [])

/-- Embedding of `terminateLease` (src/contracts/CarLease.sol, lines
492-503).  The source only flips `active` and emits an event: no
transfer, no change to the deposit. -/
def terminateLease (sender now : Nat) (s : SlotState) : CResult :=
  if ¬ s.lease.lexists then .error "Lease does not exist"
  else if ¬ s.lease.active then .error "Lease not active"
  else if ¬ (sender = s.owner ∨ sender = s.lease.lessee) then .error "Unauthorized"
  else
    let _ := now
    .ok ({ s with lease := { s.lease with active := false } }, [])

/-- Embedding of `refundUnconfirmedDeposit` (src/contracts/CarLease.sol,
lines 514-539). -/
def refundUnconfirmedDeposit (sender now : Nat) (s : SlotState) : CResult :=
  if ¬ s.lease.lexists then .error "Lease does not exist"
  else if s.lease.active then .error "Lease already confirmed"
  else if ¬ s.lease.confirmDeadline < now then .error "Confirmation deadline not passed"
  else if ¬ sender = s.lease.lessee then .error "Only lessee can claim refund"
  else if ¬ 0 < s.lease.deposit then .error "No deposit to refund"
  else .ok ({ s with lease := Lease.empty }, [(sender, s.lease.deposit)])

/-- Embedding of `claimDeposit` (src/contracts/CarLease.sol, lines
546-578). -/
def claimDeposit (sender now : Nat) (s : SlotState) : CResult :=
  if ¬ sender = s.owner then .error "OwnableUnauthorizedAccount"
  else if ¬ s.lease.lexists then .error "Lease does not exist"
  else if ¬ s.lease.active then .error "Lease not active"
  else if ¬ s.lease.lastPaymentTime + PAYMENT_GRACE < now then
    .error "Payment grace period not expired"
  else if now < s.lease.startTime then .error "arithmetic underflow"
  else if ¬ s.lease.paymentsMade < (now - s.lease.startTime) / THIRTY_DAYS then
    .error "Payments are current"
  else if ¬ 0 < s.lease.deposit then .error "No deposit to claim"
  else
    .ok ({ s with lease := { s.lease with active := false, deposit := 0 } },
         [(s.owner, s.lease.deposit)])

/-- One successful public call of the contracts-variant at time `t`,
moving the slot from `s` to `s'` (the transfers a call makes are
irrelevant to reachability and dropped). -/
inductive Step (hashFn : Nat → Nat → Nat → Nat) : Nat → SlotState → SlotState → Prop where
  | mint (t sender modelLen colorLen year ov mp dm ml : Nat) {s s' : SlotState}
      {outs : List (Nat × Nat)}
      (h : mintOption sender modelLen colorLen year ov mp dm ml s = .ok (s', outs)) :
      Step hashFn t s s'
  | commit (t sender c : Nat) {s s' : SlotState} {outs : List (Nat × Nat)}
      (h : commitToLease sender t c s = .ok (s', outs)) : Step hashFn t s s'
  | reveal (t sender value tokenId secret dm mp : Nat) {s s' : SlotState}
      {outs : List (Nat × Nat)}
      (h : revealAndPay hashFn sender t value tokenId secret dm mp s = .ok (s', outs)) :
      Step hashFn t s s'
  | confirm (t sender : Nat) {s s' : SlotState} {outs : List (Nat × Nat)}
      (h : confirmLease sender t s = .ok (s', outs)) : Step hashFn t s s'
  | pay (t sender value : Nat) {s s' : SlotState} {outs : List (Nat × Nat)}
      (h : makeMonthlyPayment sender t value s = .ok (s', outs)) : Step hashFn t s s'
  | terminate (t sender : Nat) {s s' : SlotState} {outs : List (Nat × Nat)}
      (h : terminateLease sender t s = .ok (s', outs)) : Step hashFn t s s'
  | refund (t sender : Nat) {s s' : SlotState} {outs : List (Nat × Nat)}
      (h : refundUnconfirmedDeposit sender t s = .ok (s', outs)) : Step hashFn t s s'
  | claim (t sender : Nat) {s s' : SlotState} {outs : List (Nat × Nat)}
      (h : claimDeposit sender t s = .ok (s', outs)) : Step hashFn t s s'

/-- `ReachFrom hashFn t₀ s₀ t s`: the slot can evolve from state `s₀` at
time `t₀` to state `s` at time `t` through successful calls at
nondecreasing timestamps (the host clock is monotone). -/
inductive ReachFrom (hashFn : Nat → Nat → Nat → Nat) :
    Nat → SlotState → Nat → SlotState → Prop where
  | refl (t : Nat) (s : SlotState) : ReachFrom hashFn t s t s
  | step {t₀ t₁ t₂ : Nat} {s₀ s₁ s₂ : SlotState}
      (hr : ReachFrom hashFn t₀ s₀ t₁ s₁) (hle : t₁ ≤ t₂)
      (hs : Step hashFn t₂ s₁ s₂) : ReachFrom hashFn t₀ s₀ t₂ s₂

end Contracts

/-- Per-slot state of the hardened `src/CarLease.sol` variant, which in
addition keeps a `pendingLessee` mapping entry. -/
structure HState where
  owner : Nat
  tokenMinted : Bool
  contractOwnsToken : Bool
  lease : Lease
  commit : Commit
  pendingLessee : Nat
deriving Repr, DecidableEq

/-- Result of a call on the hardened variant. -/
abbrev HResult := Except String (HState × List (Nat × Nat))

namespace Hardened

/-- Embedding of `commitToSign` (src/CarLease.sol, lines 138-152).
`ownerOf` of an unminted token reverts inside the ERC721 library with
the `ERC721NonexistentToken` custom error. -/
def commitToSign (sender now commitment : Nat) (s : HState) : HResult :=
  if ¬ s.tokenMinted then .error "ERC721NonexistentToken"
  else if ¬ s.contractOwnsToken then .error "Option not available"
  else if commitment = 0 then .error "Invalid commitment"
  else if ¬ (s.commit.commitment = 0 ∨ s.commit.deadline < now) then
    .error "Existing commit active"
  else .ok ({ s with commit := ⟨commitment, sender, now + REVEAL_WINDOW⟩ }, [])

/-- Embedding of `confirmLease` (src/CarLease.sol, lines 110-127).
This variant enforces the confirm deadline (inclusive) and stamps both
`startTime` and `lastPaymentTime` with `block.timestamp`. -/
def confirmLease (sender now : Nat) (s : HState) : HResult :=
  if ¬ sender = s.owner then .error "OwnableUnauthorizedAccount"
  else if ¬ s.lease.lexists then .error "No signed lease"
  else if s.lease.active then .error "Lease already active"
  else if s.pendingLessee = 0 then .error "No pending lessee"
  else if ¬ now ≤ s.lease.confirmDeadline then
    .error "Confirm deadline passed; seller cannot confirm"
  else
    .ok ({ s with lease :=
            { s.lease with active := true, startTime := now, lastPaymentTime := now } }, [])

end Hardened

/-- Modelled from the spec: the early-termination refund formula of
section 4.3 (`voluntary_terminate`), `penalty = (term_length −
periods_paid) × period_amount`, `refund = max(0, deposit_amount −
penalty)` (truncated `Nat` subtraction realises the floor at zero).
Neither variant's termination function computes any refund; this
definition exists only to be compared against the code. -/
def specRefund (depositAmount termLength periodsPaid periodAmount : Nat) : Nat :=
  depositAmount - (termLength - periodsPaid) * periodAmount

/-- A concrete stand-in for the keccak hash used by witnesses and
counterexamples (nothing in the claims depends on hash properties). -/
def hf0 : Nat → Nat → Nat → Nat := fun _ _ _ => 7

namespace Contracts

/-- Slot 1 just after `mintOption` by owner 1. -/
def stMinted : SlotState :=
  { initState 1 with tokenMinted := true, contractOwnsToken := true }

/-- After `commitToLease` by identity 2 at time 0 (digest 7,
reveal deadline 604800). -/
def stCommitted : SlotState :=
  { stMinted with commit := ⟨7, 2, 604800⟩ }

/-- After `revealAndPay` by identity 2 at time 0 with duration 12,
monthly payment 100, deposit 300: pending lease, commitment consumed. -/
def stPending : SlotState :=
  { stCommitted with
      lease := ⟨2, 0, 12, 100, 300, 0, 0, false, true, 604800⟩
      commit := Commit.empty }

/-- After `confirmLease` at time 0: active lease. -/
def stActive : SlotState :=
  { stPending with lease := { stPending.lease with active := true, startTime := 0 } }

/-- After `claimDeposit` at time 3888001: deposit seized and zeroed. -/
def stSeized : SlotState :=
  { stActive with lease := { stActive.lease with active := false, deposit := 0 } }

/-- After a second `confirmLease` at time 3888001 on the seized lease:
an ACTIVE lease whose deposit is 0. -/
def stReconfirmed : SlotState :=
  { stSeized with lease := { stSeized.lease with active := true, startTime := 3888001 } }

/-- After `confirmLease` at time 3456000 (40 days) on `stPending`:
active lease that has never received a payment (`lastPaymentTime` was
never written and is still 0). -/
def stActiveLate : SlotState :=
  { stPending with lease := { stPending.lease with active := true, startTime := 3456000 } }

/-- After `confirmLease` at time 5 on `stPending`. -/
def stActive5 : SlotState :=
  { stPending with lease := { stPending.lease with active := true, startTime := 5 } }

/-- After `terminateLease` by the lessee at time 5 on `stActive5`:
a terminated lease (`active = false`, nonzero `startTime`), whose
record still exists. -/
def stTerm5 : SlotState :=
  { stActive5 with lease := { stActive5.lease with active := false } }

/-- After `revealAndPay` at time 0 with duration 1, monthly payment
100, deposit 300 (single-period lease). -/
def stPendingB : SlotState :=
  { stCommitted with
      lease := ⟨2, 0, 1, 100, 300, 0, 0, false, true, 604800⟩
      commit := Commit.empty }

/-- After `confirmLease` at time 0 on `stPendingB`. -/
def stActiveB : SlotState :=
  { stPendingB with lease := { stPendingB.lease with active := true, startTime := 0 } }

/-- After `makeMonthlyPayment` at time 2592000 on `stActiveB`: all
(one) scheduled periods paid. -/
def stPaidB : SlotState :=
  { stActiveB with
      lease := { stActiveB.lease with paymentsMade := 1, lastPaymentTime := 2592000 } }

/-- After `terminateLease` by the lessee at time 2592000 on `stPaidB`. -/
def stTermB : SlotState :=
  { stPaidB with lease := { stPaidB.lease with active := false } }

/-- After `revealAndPay` at time 0 with `monthlyPaymentWei = 0` and
`msg.value = 0`: a pending lease with zero deposit. -/
def stRevealZero : SlotState :=
  { stCommitted with
      lease := ⟨2, 0, 12, 0, 0, 0, 0, false, true, 604800⟩
      commit := Commit.empty }

end Contracts

/-- Hardened-variant state with a live commitment (digest 7 by identity
2, reveal deadline 604800) and no lease. -/
def hstCommitted : HState :=
  { owner := 1
    tokenMinted := true
    contractOwnsToken := true
    lease := Lease.empty
    commit := ⟨7, 2, 604800⟩
    pendingLessee := 0 }

/-- Hardened-variant state with a pending revealed lease (lessee 2,
deposit 300, confirm deadline 604800). -/
def hstPending : HState :=
  { owner := 1
    tokenMinted := true
    contractOwnsToken := true
    lease := ⟨2, 0, 12, 100, 300, 0, 0, false, true, 604800⟩
    commit := Commit.empty
    pendingLessee := 2 }

namespace Contracts

/-- Inversion of a successful `mintOption` call. -/
theorem mintOption_ok {sender modelLen colorLen year ov mp dm ml : Nat}
    {s s' : SlotState} {outs : List (Nat × Nat)}
    (h : mintOption sender modelLen colorLen year ov mp dm ml s = .ok (s', outs)) :
    sender = s.owner ∧ s.tokenMinted = false ∧
    s' = { s with tokenMinted := true, contractOwnsToken := true } ∧ outs = [] := by
  unfold mintOption at h
  split_ifs at h with h1 h2 h3 h4 h5 h6
  simp_all

/-- Inversion of a successful `commitToLease` call. -/
theorem commitToLease_ok {sender now c : Nat} {s s' : SlotState} {outs : List (Nat × Nat)}
    (h : commitToLease sender now c s = .ok (s', outs)) :
    s.tokenMinted = true ∧ s.contractOwnsToken = true ∧ s.lease.lexists = false ∧
    s' = { s with commit := ⟨c, sender, now + REVEAL_WINDOW⟩ } ∧ outs = [] := by
  unfold commitToLease at h
  split_ifs at h with h1 h2 h3
  simp_all

/-- Inversion of a successful `revealAndPay` call: the commitment was
live and matched the preimage, the slot had no lease, the attached
payment was exactly three monthly payments, and the new state holds a
pending lease with that deposit while the commitment is consumed. -/
theorem revealAndPay_ok {hashFn : Nat → Nat → Nat → Nat}
    {sender now value tokenId secret dm mp : Nat}
    {s s' : SlotState} {outs : List (Nat × Nat)}
    (h : revealAndPay hashFn sender now value tokenId secret dm mp s = .ok (s', outs)) :
    s.tokenMinted = true ∧ s.contractOwnsToken = true ∧ now ≤ s.commit.deadline ∧
    hashFn tokenId secret sender = s.commit.commitment ∧ s.lease.lexists = false ∧
    value = mp * 3 ∧
    s' = { s with
            lease := { lessee := sender, startTime := 0, durationMonths := dm,
                       monthlyPayment := mp, deposit := value, paymentsMade := 0,
                       lastPaymentTime := 0, active := false, lexists := true,
                       confirmDeadline := now + CONFIRM_WINDOW }
            commit := Commit.empty } ∧
    outs = [] := by
  unfold revealAndPay at h
  split_ifs at h with h1 h2 h3 h4 h5 h6
  simp_all

/-- Inversion of a successful `confirmLease` call (contracts variant):
only `active` and `startTime` change; `lastPaymentTime` is untouched. -/
theorem confirmLease_ok {sender now : Nat} {s s' : SlotState} {outs : List (Nat × Nat)}
    (h : confirmLease sender now s = .ok (s', outs)) :
    sender = s.owner ∧ s.lease.lexists = true ∧ s.lease.active = false ∧
    s' = { s with lease := { s.lease with active := true, startTime := now } } ∧
    outs = [] := by
  unfold confirmLease at h
  split_ifs at h with h1 h2 h3
  simp_all

/-- Inversion of a successful `makeMonthlyPayment` call. -/
theorem makeMonthlyPayment_ok {sender now value : Nat} {s s' : SlotState}
    {outs : List (Nat × Nat)}
    (h : makeMonthlyPayment sender now value s = .ok (s', outs)) :
    s.lease.lexists = true ∧ s.lease.active = true ∧ sender = s.lease.lessee ∧
    value = s.lease.monthlyPayment ∧ s.lease.startTime ≤ now ∧
    s.lease.paymentsMade < (now - s.lease.startTime) / THIRTY_DAYS ∧
    s' = { s with lease :=
            { s.lease with paymentsMade := s.lease.paymentsMade + 1,
                           lastPaymentTime := now } } ∧
    outs = [] := by
  unfold makeMonthlyPayment at h
  split_ifs at h with h1 h2 h3 h4 h5 h6
  simp_all

/-- Inversion of a successful `terminateLease` call: the only state
change is `active := false`; no ether moves. -/
theorem terminateLease_ok {sender now : Nat} {s s' : SlotState} {outs : List (Nat × Nat)}
    (h : terminateLease sender now s = .ok (s', outs)) :
    s.lease.lexists = true ∧ s.lease.active = true ∧
    (sender = s.owner ∨ sender = s.lease.lessee) ∧
    s' = { s with lease := { s.lease with active := false } } ∧ outs = [] := by
  unfold terminateLease at h
  split_ifs at h with h1 h2 h3
  simp_all

/-- Inversion of a successful `refundUnconfirmedDeposit` call: the
lease was a funded pending one past its confirm deadline, the record is
deleted and the full deposit is sent back to the lessee. -/
theorem refundUnconfirmedDeposit_ok {sender now : Nat} {s s' : SlotState}
    {outs : List (Nat × Nat)}
    (h : refundUnconfirmedDeposit sender now s = .ok (s', outs)) :
    s.lease.lexists = true ∧ s.lease.active = false ∧
    s.lease.confirmDeadline < now ∧ sender = s.lease.lessee ∧ 0 < s.lease.deposit ∧
    s' = { s with lease := Lease.empty } ∧ outs = [(sender, s.lease.deposit)] := by
  unfold refundUnconfirmedDeposit at h
  split_ifs at h with h1 h2 h3 h4 h5
  simp_all

/-- Inversion of a successful `claimDeposit` call: the grace window had
strictly passed, the holder was behind schedule, the deposit was
nonzero; the lease is deactivated, its deposit zeroed, and the deposit
amount is sent to the owner. -/
theorem claimDeposit_ok {sender now : Nat} {s s' : SlotState} {outs : List (Nat × Nat)}
    (h : claimDeposit sender now s = .ok (s', outs)) :
    sender = s.owner ∧ s.lease.lexists = true ∧ s.lease.active = true ∧
    s.lease.lastPaymentTime + PAYMENT_GRACE < now ∧ s.lease.startTime ≤ now ∧
    s.lease.paymentsMade < (now - s.lease.startTime) / THIRTY_DAYS ∧
    0 < s.lease.deposit ∧
    s' = { s with lease := { s.lease with active := false, deposit := 0 } } ∧
    outs = [(s.owner, s.lease.deposit)] := by
  unfold claimDeposit at h
  split_ifs at h with h1 h2 h3 h4 h5 h6 h7
  simp_all


/-- Every single successful call preserves the invariant that an
existing lease's deposit is either exactly three monthly payments or
zero. -/
theorem step_deposit {hashFn : Nat → Nat → Nat → Nat} {t : Nat} {s s' : SlotState}
    (hs : Step hashFn t s s')
    (h : s.lease.deposit = s.lease.monthlyPayment * 3 ∨ s.lease.deposit = 0) :
    s'.lease.deposit = s'.lease.monthlyPayment * 3 ∨ s'.lease.deposit = 0 := by
  cases hs with
  | mint _ _ _ _ _ _ _ _ h' =>
    obtain ⟨-, -, hs', -⟩ := mintOption_ok h'
    subst hs'; simpa using h
  | commit _ _ h' =>
    obtain ⟨-, -, -, hs', -⟩ := commitToLease_ok h'
    subst hs'; simpa using h
  | reveal _ _ _ _ _ _ h' =>
    obtain ⟨-, -, -, -, -, hv, hs', -⟩ := revealAndPay_ok h'
    subst hs'; left; simpa using hv
  | confirm _ h' =>
    obtain ⟨-, -, -, hs', -⟩ := confirmLease_ok h'
    subst hs'; simpa using h
  | pay _ _ h' =>
    obtain ⟨-, -, -, -, -, -, hs', -⟩ := makeMonthlyPayment_ok h'
    subst hs'; simpa using h
  | terminate _ h' =>
    obtain ⟨-, -, -, hs', -⟩ := terminateLease_ok h'
    subst hs'; simpa using h
  | refund _ h' =>
    obtain ⟨-, -, -, -, -, hs', -⟩ := refundUnconfirmedDeposit_ok h'
    subst hs'; right; rfl
  | claim _ h' =>
    obtain ⟨-, -, -, -, -, -, -, hs', -⟩ := claimDeposit_ok h'
    subst hs'; right; rfl

/-- The deposit invariant lifted along any reachable evolution. -/
theorem reachFrom_deposit {hashFn : Nat → Nat → Nat → Nat} {t₀ t : Nat}
    {s₀ s : SlotState} (hr : ReachFrom hashFn t₀ s₀ t s)
    (h₀ : s₀.lease.deposit = s₀.lease.monthlyPayment * 3 ∨ s₀.lease.deposit = 0) :
    s.lease.deposit = s.lease.monthlyPayment * 3 ∨ s.lease.deposit = 0 := by
  induction hr with
  | refl => exact h₀
  | step hr hle hs ih => exact step_deposit hs (ih h₀)

/-- Every single successful call preserves the facts that a lease
record exists and that its deposit is zero (no call can refill a zeroed
deposit in place: `revealAndPay` requires the record to be absent,
and both deposit-paying paths check the record's absence first). -/
theorem step_zero_deposit {hashFn : Nat → Nat → Nat → Nat} {t : Nat} {s s' : SlotState}
    (hs : Step hashFn t s s')
    (h : s.lease.lexists = true ∧ s.lease.deposit = 0) :
    s'.lease.lexists = true ∧ s'.lease.deposit = 0 := by
  cases hs with
  | mint _ _ _ _ _ _ _ _ h' =>
    obtain ⟨-, -, hs', -⟩ := mintOption_ok h'
    subst hs'; simpa using h
  | commit _ _ h' =>
    obtain ⟨-, -, hl, -⟩ := commitToLease_ok h'
    simp [h.1] at hl
  | reveal _ _ _ _ _ _ h' =>
    obtain ⟨-, -, -, -, hl, -⟩ := revealAndPay_ok h'
    simp [h.1] at hl
  | confirm _ h' =>
    obtain ⟨-, -, -, hs', -⟩ := confirmLease_ok h'
    subst hs'; simpa using h
  | pay _ _ h' =>
    obtain ⟨-, -, -, -, -, -, hs', -⟩ := makeMonthlyPayment_ok h'
    subst hs'; simpa using h
  | terminate _ h' =>
    obtain ⟨-, -, -, hs', -⟩ := terminateLease_ok h'
    subst hs'; simpa using h
  | refund _ h' =>
    obtain ⟨-, -, -, -, hd, -⟩ := refundUnconfirmedDeposit_ok h'
    simp [h.2] at hd
  | claim _ h' =>
    obtain ⟨-, -, -, -, -, -, hd, -⟩ := claimDeposit_ok h'
    simp [h.2] at hd

/-- The zero-deposit facts lifted along any reachable evolution. -/
theorem reachFrom_zero_deposit {hashFn : Nat → Nat → Nat → Nat} {t₀ t : Nat}
    {s₀ s : SlotState} (hr : ReachFrom hashFn t₀ s₀ t s)
    (h₀ : s₀.lease.lexists = true ∧ s₀.lease.deposit = 0) :
    s.lease.lexists = true ∧ s.lease.deposit = 0 := by
  induction hr with
  | refl => exact h₀
  | step hr hle hs ih => exact step_zero_deposit hs (ih h₀)

/-- On a lease with zero deposit, `refundUnconfirmedDeposit` can never
succeed. -/
theorem refund_fails_of_zero_deposit {s : SlotState} (h : s.lease.deposit = 0)
    (sender now : Nat) (r : SlotState × List (Nat × Nat)) :
    ¬ refundUnconfirmedDeposit sender now s = .ok r := by
  intro hc
  obtain ⟨s', outs⟩ := r
  obtain ⟨-, -, -, -, hd, -⟩ := refundUnconfirmedDeposit_ok hc
  simp [h] at hd

end Contracts

namespace Contracts

/-- The minted slot is reachable from a fresh deployment. -/
theorem reach_stMinted : ReachFrom hf0 0 (initState 1) 0 stMinted :=
  (ReachFrom.refl 0 _).step (Nat.le_refl 0)
    (Step.mint 0 1 1 1 2024 1 1 1 1
      (by decide : mintOption 1 1 1 2024 1 1 1 1 (initState 1) = .ok (stMinted, [])))

/-- The committed slot is reachable. -/
theorem reach_stCommitted : ReachFrom hf0 0 (initState 1) 0 stCommitted :=
  reach_stMinted.step (Nat.le_refl 0)
    (Step.commit 0 2 7
      (by decide : commitToLease 2 0 7 stMinted = .ok (stCommitted, [])))

/-- The pending 12-month lease is reachable. -/
theorem reach_stPending : ReachFrom hf0 0 (initState 1) 0 stPending :=
  reach_stCommitted.step (Nat.le_refl 0)
    (Step.reveal 0 2 300 0 0 12 100
      (by decide : revealAndPay hf0 2 0 300 0 0 12 100 stCommitted = .ok (stPending, [])))

/-- The active 12-month lease is reachable. -/
theorem reach_stActive : ReachFrom hf0 0 (initState 1) 0 stActive :=
  reach_stPending.step (Nat.le_refl 0)
    (Step.confirm 0 1 (by decide : confirmLease 1 0 stPending = .ok (stActive, [])))

/-- The seized lease is reachable: one tick past the grace window with
no payment made, `claimDeposit` succeeds and zeroes the deposit. -/
theorem reach_stSeized : ReachFrom hf0 0 (initState 1) 3888001 stSeized :=
  reach_stActive.step (Nat.zero_le 3888001)
    (Step.claim 3888001 1
      (by decide : claimDeposit 1 3888001 stActive = .ok (stSeized, [(1, 300)])))

/-- A second `confirmLease` on the seized lease succeeds (the source
checks only existence and inactivity), producing a reachable ACTIVE
lease whose deposit is zero. -/
theorem reach_stReconfirmed : ReachFrom hf0 0 (initState 1) 3888001 stReconfirmed :=
  reach_stSeized.step (Nat.le_refl 3888001)
    (Step.confirm 3888001 1
      (by decide : confirmLease 1 3888001 stSeized = .ok (stReconfirmed, [])))

/-- The lease confirmed at day 40 is reachable. -/
theorem reach_stActiveLate : ReachFrom hf0 0 (initState 1) 3456000 stActiveLate :=
  reach_stPending.step (Nat.zero_le 3456000)
    (Step.confirm 3456000 1
      (by decide : confirmLease 1 3456000 stPending = .ok (stActiveLate, [])))

/-- The lease confirmed at time 5 is reachable. -/
theorem reach_stActive5 : ReachFrom hf0 0 (initState 1) 5 stActive5 :=
  reach_stPending.step (Nat.zero_le 5)
    (Step.confirm 5 1 (by decide : confirmLease 1 5 stPending = .ok (stActive5, [])))

/-- The terminated lease is reachable. -/
theorem reach_stTerm5 : ReachFrom hf0 0 (initState 1) 5 stTerm5 :=
  reach_stActive5.step (Nat.le_refl 5)
    (Step.terminate 5 2 (by decide : terminateLease 2 5 stActive5 = .ok (stTerm5, [])))

/-- The pending single-period lease is reachable. -/
theorem reach_stPendingB : ReachFrom hf0 0 (initState 1) 0 stPendingB :=
  reach_stCommitted.step (Nat.le_refl 0)
    (Step.reveal 0 2 300 0 0 1 100
      (by decide : revealAndPay hf0 2 0 300 0 0 1 100 stCommitted = .ok (stPendingB, [])))

/-- The active single-period lease is reachable. -/
theorem reach_stActiveB : ReachFrom hf0 0 (initState 1) 0 stActiveB :=
  reach_stPendingB.step (Nat.le_refl 0)
    (Step.confirm 0 1 (by decide : confirmLease 1 0 stPendingB = .ok (stActiveB, [])))

/-- The fully paid single-period lease is reachable. -/
theorem reach_stPaidB : ReachFrom hf0 0 (initState 1) 2592000 stPaidB :=
  reach_stActiveB.step (Nat.zero_le 2592000)
    (Step.pay 2592000 2 100
      (by decide : makeMonthlyPayment 2 2592000 100 stActiveB = .ok (stPaidB, [])))

/-- The zero-deposit pending lease is reachable. -/
theorem reach_stRevealZero : ReachFrom hf0 0 (initState 1) 0 stRevealZero :=
  reach_stCommitted.step (Nat.le_refl 0)
    (Step.reveal 0 2 0 0 0 12 0
      (by decide : revealAndPay hf0 2 0 0 0 0 12 0 stCommitted = .ok (stRevealZero, [])))

end Contracts

/-- C1 (counterexample): in the contracts variant, identity 3 places a
commitment at time 0 over the live, unexpired commitment of identity 2
(reveal deadline 604800, so now = 0 is strictly before it): the call
succeeds and silently overwrites instead of failing with
CommitmentStillLive. -/
theorem c1_counterexample :
    Contracts.ReachFrom hf0 0 (initState 1) 0 Contracts.stCommitted ∧
    (0 : Nat) < Contracts.stCommitted.commit.deadline ∧
    Contracts.commitToLease 3 0 9 Contracts.stCommitted =
      .ok ({ Contracts.stCommitted with commit := ⟨9, 3, 604800⟩ }, []) :=
  ⟨Contracts.reach_stCommitted, by decide, by decide⟩

/-- C1 (amended): the commitment-liveness guard exists only in the
hardened variant: `commitToSign` fails with "Existing commit active"
whenever the stored digest is nonzero and now ≤ its reveal deadline,
and overwrites exactly when the stored digest is zero (consumed or
never placed) or the deadline has strictly passed; the contracts
variant's `commitToLease` inspects nothing about the stored commitment
and always overwrites it. -/
theorem c1_commit_liveness (sender now c sender₂ now₂ c₂ : Nat)
    (sH : HState) (sC : SlotState)
    (hmH : sH.tokenMinted = true) (hoH : sH.contractOwnsToken = true)
    (hc : ¬ c = 0)
    (hmC : sC.tokenMinted = true) (hoC : sC.contractOwnsToken = true)
    (hlC : sC.lease.lexists = false) :
    (¬ sH.commit.commitment = 0 → now ≤ sH.commit.deadline →
      Hardened.commitToSign sender now c sH = .error "Existing commit active") ∧
    ((sH.commit.commitment = 0 ∨ sH.commit.deadline < now) →
      Hardened.commitToSign sender now c sH =
        .ok ({ sH with commit := ⟨c, sender, now + REVEAL_WINDOW⟩ }, [])) ∧
    Contracts.commitToLease sender₂ now₂ c₂ sC =
      .ok ({ sC with commit := ⟨c₂, sender₂, now₂ + REVEAL_WINDOW⟩ }, []) := by
  refine ⟨?_, ?_, ?_⟩
  · intro h1 h2
    unfold Hardened.commitToSign
    simp [hmH, hoH, hc, h1, Nat.not_lt.mpr h2]
  · intro h1
    unfold Hardened.commitToSign
    rcases h1 with h1 | h1 <;> simp [hmH, hoH, hc, h1]
  · unfold Contracts.commitToLease
    simp [hmC, hoC, hlC]

/-- C1 witness: the second commit at time 0 fails on the hardened state
holding a live commitment, and succeeds on the contracts minted state. -/
theorem c1_witness :
    Hardened.commitToSign 3 0 9 hstCommitted = .error "Existing commit active" ∧
    Contracts.commitToLease 3 0 9 Contracts.stMinted =
      .ok ({ Contracts.stMinted with commit := ⟨9, 3, 0 + REVEAL_WINDOW⟩ }, []) := by
  have h := c1_commit_liveness 3 0 9 3 0 9 hstCommitted Contracts.stMinted rfl rfl
    (by decide) rfl rfl rfl
  exact ⟨h.1 (by decide) (by decide), h.2.2⟩

/-- C2 (counterexample): the contracts variant confirms a pending lease
one unit after its admission deadline (604800) without any error: the
claimed failure with AdmissionDeadlinePassed never happens there. -/
theorem c2_counterexample :
    Contracts.ReachFrom hf0 0 (initState 1) 0 Contracts.stPending ∧
    Contracts.stPending.lease.confirmDeadline = 604800 ∧
    Contracts.confirmLease 1 604801 Contracts.stPending =
      .ok ({ Contracts.stPending with lease := { Contracts.stPending.lease with
              active := true, startTime := 604801 } }, []) :=
  ⟨Contracts.reach_stPending, by decide, by decide⟩

/-- C2 (amended): the admission deadline is enforced only by the
hardened variant: its `confirmLease`, on an existing unconfirmed lease
with a recorded pending lessee, succeeds at any now ≤ confirmDeadline
(inclusive boundary) and fails strictly after the deadline; the
contracts variant's `confirmLease` checks no deadline at all and
succeeds at any time on an existing, unconfirmed lease. -/
theorem c2_confirm_deadline (now now₂ : Nat) (sH : HState) (sC : SlotState)
    (hexH : sH.lease.lexists = true) (hactH : sH.lease.active = false)
    (hpl : ¬ sH.pendingLessee = 0)
    (hexC : sC.lease.lexists = true) (hactC : sC.lease.active = false) :
    (now ≤ sH.lease.confirmDeadline →
      Hardened.confirmLease sH.owner now sH =
        .ok ({ sH with lease := { sH.lease with
                active := true, startTime := now, lastPaymentTime := now } }, [])) ∧
    (sH.lease.confirmDeadline < now →
      Hardened.confirmLease sH.owner now sH =
        .error "Confirm deadline passed; seller cannot confirm") ∧
    Contracts.confirmLease sC.owner now₂ sC =
      .ok ({ sC with lease := { sC.lease with active := true, startTime := now₂ } }, []) := by
  refine ⟨?_, ?_, ?_⟩
  · intro hdl
    unfold Hardened.confirmLease
    simp [hexH, hactH, hpl, hdl]
  · intro hdl
    unfold Hardened.confirmLease
    simp [hexH, hactH, hpl, Nat.not_le.mpr hdl]
  · unfold Contracts.confirmLease
    simp [hexC, hactC]

/-- C2 witness: the hardened confirm succeeds at exactly the deadline
604800 on the pending hardened lease; the contracts confirm succeeds on
the reachable pending lease. -/
theorem c2_witness :
    Hardened.confirmLease 1 604800 hstPending =
      .ok ({ hstPending with lease := { hstPending.lease with
              active := true, startTime := 604800, lastPaymentTime := 604800 } }, []) ∧
    Contracts.confirmLease 1 0 Contracts.stPending =
      .ok ({ Contracts.stPending with lease := { Contracts.stPending.lease with
              active := true, startTime := 0 } }, []) := by
  have h := c2_confirm_deadline 604800 0 hstPending Contracts.stPending rfl rfl
    (by decide) rfl rfl
  exact ⟨h.1 (by decide), h.2.2⟩

/-- C3 (counterexample): the claimed invariant "every reachable
PENDING or ACTIVE lease has deposit = 3 × period amount" fails on the
contracts variant: seizing the deposit (`claimDeposit`) and then
re-confirming the same record (`confirmLease` checks only existence and
inactivity) reaches an ACTIVE lease whose deposit is 0 while its
monthly payment is 100. -/
theorem c3_counterexample :
    Contracts.ReachFrom hf0 0 (initState 1) 3888001 Contracts.stReconfirmed ∧
    Contracts.stReconfirmed.lease.lexists = true ∧
    Contracts.stReconfirmed.lease.active = true ∧
    ¬ Contracts.stReconfirmed.lease.deposit =
        Contracts.stReconfirmed.lease.monthlyPayment * 3 :=
  ⟨Contracts.reach_stReconfirmed, by decide, by decide, by decide⟩

/-- C3 (amended): in every reachable state of the contracts variant the
lease deposit equals exactly three monthly payments or is zero (it is
set to 3 × monthlyPayment by `revealAndPay`, zeroed by `claimDeposit`,
and never otherwise mutated). -/
theorem c3_deposit_invariant (hashFn : Nat → Nat → Nat → Nat) (o t : Nat)
    (s : SlotState) (hr : Contracts.ReachFrom hashFn 0 (initState o) t s) :
    s.lease.deposit = s.lease.monthlyPayment * 3 ∨ s.lease.deposit = 0 :=
  Contracts.reachFrom_deposit hr (Or.inr rfl)

/-- C3 witness: evaluated on the reachable pending lease with monthly
payment 100 and deposit 300. -/
theorem c3_witness :
    Contracts.stPending.lease.deposit = Contracts.stPending.lease.monthlyPayment * 3 ∨
      Contracts.stPending.lease.deposit = 0 :=
  c3_deposit_invariant hf0 1 0 Contracts.stPending Contracts.reach_stPending

/-- C4 (counterexample): on the reachable ACTIVE single-period lease
with deposit 300, duration 1 and one payment made, the spec refund
formula awards 300, but `terminateLease` succeeds transferring nothing
(its transfer list is empty). -/
theorem c4_counterexample :
    Contracts.ReachFrom hf0 0 (initState 1) 2592000 Contracts.stPaidB ∧
    Contracts.stPaidB.lease.active = true ∧
    Contracts.terminateLease 2 2592000 Contracts.stPaidB = .ok (Contracts.stTermB, []) ∧
    specRefund Contracts.stPaidB.lease.deposit Contracts.stPaidB.lease.durationMonths
      Contracts.stPaidB.lease.paymentsMade Contracts.stPaidB.lease.monthlyPayment = 300 ∧
    ¬ (300 : Nat) = 0 :=
  ⟨Contracts.reach_stPaidB, by decide, by decide, by decide, by decide⟩

/-- C4 (amended): every successful `terminateLease` only flips `active`
to false and performs no transfer at all: the holder is refunded
nothing, whatever the deposit, duration, payments made and monthly
payment are (so in the cited example the holder indeed receives
nothing, but not by the claimed formula). -/
theorem c4_terminate_no_refund (sender now : Nat) (s s' : SlotState)
    (outs : List (Nat × Nat))
    (h : Contracts.terminateLease sender now s = .ok (s', outs)) :
    s' = { s with lease := { s.lease with active := false } } ∧ outs = [] ∧
    s'.lease.deposit = s.lease.deposit := by
  obtain ⟨-, -, -, hs', houts⟩ := Contracts.terminateLease_ok h
  subst hs'
  exact ⟨rfl, houts, rfl⟩

/-- C4 witness: the termination at time 5 of the reachable active
lease. -/
theorem c4_witness :
    Contracts.stTerm5 =
      { Contracts.stActive5 with
          lease := { Contracts.stActive5.lease with active := false } } ∧
    ([] : List (Nat × Nat)) = [] ∧
    Contracts.stTerm5.lease.deposit = Contracts.stActive5.lease.deposit :=
  c4_terminate_no_refund 2 5 Contracts.stActive5 Contracts.stTerm5 [] (by decide)

/-- C5 (counterexample): after voluntary termination the lease record
still exists (`terminateLease` only clears `active`), so a subsequent
`commitToLease` for the slot fails with "Already leased": a TERMINATED
lease does not free the slot. -/
theorem c5_counterexample :
    Contracts.ReachFrom hf0 0 (initState 1) 5 Contracts.stTerm5 ∧
    Contracts.stTerm5.lease.active = false ∧
    ¬ Contracts.stTerm5.lease.startTime = 0 ∧
    Contracts.commitToLease 3 6 9 Contracts.stTerm5 = .error "Already leased" :=
  ⟨Contracts.reach_stTerm5, by decide, by decide, by decide⟩

/-- C5 (amended): only the refund path frees a slot: after a successful
`refundUnconfirmedDeposit` the record is deleted and a new
`commitToLease` succeeds, while after a successful `terminateLease` the
record still exists and a new `commitToLease` fails with
"Already leased". -/
theorem c5_slot_freed (sender now c sender₂ now₂ sender₃ now₃ c₃ : Nat)
    (s s₁ u u₁ : SlotState) (outs outs₃ : List (Nat × Nat))
    (href : Contracts.refundUnconfirmedDeposit sender now s = .ok (s₁, outs))
    (hm : s.tokenMinted = true) (ho : s.contractOwnsToken = true)
    (hterm : Contracts.terminateLease sender₃ now₃ u = .ok (u₁, outs₃))
    (hmu : u.tokenMinted = true) (hou : u.contractOwnsToken = true) :
    Contracts.commitToLease sender₂ now₂ c s₁ =
      .ok ({ s₁ with commit := ⟨c, sender₂, now₂ + REVEAL_WINDOW⟩ }, []) ∧
    Contracts.commitToLease sender₂ now₂ c₃ u₁ = .error "Already leased" := by
  obtain ⟨-, -, -, -, -, hs₁, -⟩ := Contracts.refundUnconfirmedDeposit_ok href
  obtain ⟨hexu, -, -, hu₁, -⟩ := Contracts.terminateLease_ok hterm
  subst hs₁
  subst hu₁
  constructor
  · unfold Contracts.commitToLease
    simp [hm, ho, Lease.empty]
  · unfold Contracts.commitToLease
    simp [hmu, hou, hexu]

/-- C5 witness: commit succeeds on the slot freed by the refund of the
reachable pending lease, and fails on the reachable terminated lease. -/
theorem c5_witness :
    Contracts.commitToLease 3 700000 9 { Contracts.stPending with lease := Lease.empty } =
      .ok ({ { Contracts.stPending with lease := Lease.empty } with
              commit := ⟨9, 3, 700000 + REVEAL_WINDOW⟩ }, []) ∧
    Contracts.commitToLease 3 700000 8 Contracts.stTerm5 = .error "Already leased" :=
  c5_slot_freed 2 604801 9 3 700000 2 5 8 Contracts.stPending
    { Contracts.stPending with lease := Lease.empty } Contracts.stActive5
    Contracts.stTerm5 [(2, 300)] [] (by decide) rfl rfl (by decide) rfl rfl

/-- C6 (counterexample): a reveal that paid in deposit 0 (zero monthly
payment) succeeds, but the subsequent reclaim strictly after the
confirm deadline reverts with "No deposit to refund" instead of
transferring the paid-in amount back and deleting the record. -/
theorem c6_counterexample :
    Contracts.ReachFrom hf0 0 (initState 1) 0 Contracts.stRevealZero ∧
    Contracts.stRevealZero.lease.deposit = 0 ∧
    Contracts.stRevealZero.lease.confirmDeadline = 604800 ∧
    Contracts.refundUnconfirmedDeposit 2 604801 Contracts.stRevealZero =
      .error "No deposit to refund" :=
  ⟨Contracts.reach_stRevealZero, by decide, by decide, by decide⟩

/-- C6 (amended): for every successful reveal that paid a positive
deposit D, a reclaim by the same identity at any time strictly past the
confirm deadline, with no intervening call, succeeds, transfers back
exactly D, and deletes the record. -/
theorem c6_reveal_reclaim_roundtrip (hashFn : Nat → Nat → Nat → Nat)
    (sender now value tokenId secret dm mp t : Nat) (s s' : SlotState)
    (outs : List (Nat × Nat))
    (hrev : Contracts.revealAndPay hashFn sender now value tokenId secret dm mp s =
      .ok (s', outs))
    (hpos : 0 < value) (ht : s'.lease.confirmDeadline < t) :
    Contracts.refundUnconfirmedDeposit sender t s' =
      .ok ({ s' with lease := Lease.empty }, [(sender, value)]) := by
  obtain ⟨-, -, -, -, -, -, hs', -⟩ := Contracts.revealAndPay_ok hrev
  subst hs'
  simp only at ht
  unfold Contracts.refundUnconfirmedDeposit
  simp [hpos, ht]

/-- C6 witness: the reveal of the 300-wei deposit then its reclaim at
time 604801 returns exactly 300 to the lessee. -/
theorem c6_witness :
    Contracts.refundUnconfirmedDeposit 2 604801 Contracts.stPending =
      .ok ({ Contracts.stPending with lease := Lease.empty }, [(2, 300)]) :=
  c6_reveal_reclaim_roundtrip hf0 2 0 300 0 0 12 100 604801 Contracts.stCommitted
    Contracts.stPending [] (by decide) (by decide) (by decide)

/-- C7: for an ACTIVE lease, a payment by the lessee of exactly the
monthly amount succeeds exactly when fewer payments have been made than
the number of elapsed 30-day periods since activation, incrementing the
counter and stamping the time; otherwise it fails with
"Payment not due". -/
theorem c7_payment_due_iff (sender now value : Nat) (s : SlotState)
    (hex : s.lease.lexists = true) (hact : s.lease.active = true)
    (hsend : sender = s.lease.lessee) (hval : value = s.lease.monthlyPayment)
    (hst : s.lease.startTime ≤ now) :
    (s.lease.paymentsMade < (now - s.lease.startTime) / THIRTY_DAYS →
      Contracts.makeMonthlyPayment sender now value s =
        .ok ({ s with lease := { s.lease with
                paymentsMade := s.lease.paymentsMade + 1,
                lastPaymentTime := now } }, [])) ∧
    (¬ s.lease.paymentsMade < (now - s.lease.startTime) / THIRTY_DAYS →
      Contracts.makeMonthlyPayment sender now value s = .error "Payment not due") := by
  constructor <;> intro hdue <;> unfold Contracts.makeMonthlyPayment <;>
    simp [hex, hact, hsend, hval, Nat.not_lt.mpr hst, hdue]

/-- C7 witness: on the reachable active lease, the payment at exactly
one period after activation succeeds, and an immediate second payment
in the same period fails with "Payment not due". -/
theorem c7_witness :
    Contracts.makeMonthlyPayment 2 2592000 100 Contracts.stActiveB =
      .ok (Contracts.stPaidB, []) ∧
    Contracts.makeMonthlyPayment 2 2592000 100 Contracts.stPaidB =
      .error "Payment not due" := by
  constructor
  · exact (c7_payment_due_iff 2 2592000 100 Contracts.stActiveB rfl rfl rfl rfl
      (by decide)).1 (by decide)
  · exact (c7_payment_due_iff 2 2592000 100 Contracts.stPaidB rfl rfl rfl rfl
      (by decide)).2 (by decide)

/-- C8 (counterexample): on the reachable lease confirmed at day 40 with
no payment ever made (`lastPaymentTime` still 0), the seize at exactly
lastPaymentTime + PAYMENT_GRACE = 3888000 fails as claimed, but one
unit later it does NOT succeed: it reverts with "Payments are current"
because no 30-day period has elapsed since activation. -/
theorem c8_counterexample :
    Contracts.ReachFrom hf0 0 (initState 1) 3456000 Contracts.stActiveLate ∧
    Contracts.stActiveLate.lease.active = true ∧
    Contracts.stActiveLate.lease.lastPaymentTime = 0 ∧
    Contracts.claimDeposit 1 3888000 Contracts.stActiveLate =
      .error "Payment grace period not expired" ∧
    Contracts.claimDeposit 1 3888001 Contracts.stActiveLate =
      .error "Payments are current" :=
  ⟨Contracts.reach_stActiveLate, by decide, by decide, by decide, by decide⟩

/-- C8 (amended): for an ACTIVE lease, a seize at exactly
lastPaymentTime + PAYMENT_GRACE fails with "Payment grace period not
expired"; one unit later it succeeds — provided additionally that the
holder is behind schedule (paymentsMade below elapsed 30-day periods)
and the deposit is nonzero — transferring the deposit to the owner,
deactivating the lease and zeroing the deposit field. -/
theorem c8_seize_grace_boundary (now₁ now₂ : Nat) (s : SlotState)
    (hex : s.lease.lexists = true) (hact : s.lease.active = true)
    (h₁ : now₁ = s.lease.lastPaymentTime + PAYMENT_GRACE)
    (h₂ : now₂ = s.lease.lastPaymentTime + PAYMENT_GRACE + 1)
    (hst : s.lease.startTime ≤ now₂)
    (hbehind : s.lease.paymentsMade < (now₂ - s.lease.startTime) / THIRTY_DAYS)
    (hdep : 0 < s.lease.deposit) :
    Contracts.claimDeposit s.owner now₁ s = .error "Payment grace period not expired" ∧
    Contracts.claimDeposit s.owner now₂ s =
      .ok ({ s with lease := { s.lease with active := false, deposit := 0 } },
           [(s.owner, s.lease.deposit)]) := by
  subst h₁
  subst h₂
  constructor
  · unfold Contracts.claimDeposit
    simp [hex, hact]
  · unfold Contracts.claimDeposit
    simp [hex, hact, hbehind, hdep, Nat.not_lt.mpr hst, Nat.lt_succ_self]

/-- C8 witness: on the reachable active lease activated at time 0 with
no payment yet, the seize fails at 3888000 and succeeds at 3888001. -/
theorem c8_witness :
    Contracts.claimDeposit 1 3888000 Contracts.stActiveB =
      .error "Payment grace period not expired" ∧
    Contracts.claimDeposit 1 3888001 Contracts.stActiveB =
      .ok ({ Contracts.stActiveB with
              lease := { Contracts.stActiveB.lease with active := false, deposit := 0 } },
           [(1, 300)]) :=
  c8_seize_grace_boundary 3888000 3888001 Contracts.stActiveB rfl rfl (by decide)
    (by decide) (by decide) (by decide) (by decide)

/-- C9 (counterexample): the contracts `confirmLease` at time 50 on the
reachable pending lease sets `startTime` to 50 but leaves
`lastPaymentTime` at 0: the claim that confirm sets both to now fails
on that variant. -/
theorem c9_counterexample :
    Contracts.confirmLease 1 50 Contracts.stPending =
      .ok ({ Contracts.stPending with lease := { Contracts.stPending.lease with
              active := true, startTime := 50 } }, []) ∧
    ({ Contracts.stPending.lease with
        active := true, startTime := 50 }).lastPaymentTime = 0 ∧
    ¬ (0 : Nat) = 50 :=
  ⟨by decide, by decide, by decide⟩

/-- C9 (amended): only the hardened `confirmLease` sets both
`startTime` and `lastPaymentTime` to now; the contracts variant sets
only `startTime` and leaves `lastPaymentTime` at its previous value
(0 for a lease that has never received a payment). -/
theorem c9_confirm_timestamps (now now₂ : Nat) (sH : HState) (sC : SlotState)
    (hexH : sH.lease.lexists = true) (hactH : sH.lease.active = false)
    (hpl : ¬ sH.pendingLessee = 0) (hdl : now ≤ sH.lease.confirmDeadline)
    (hexC : sC.lease.lexists = true) (hactC : sC.lease.active = false) :
    (∃ L : Lease,
      Hardened.confirmLease sH.owner now sH = .ok ({ sH with lease := L }, []) ∧
      L.startTime = now ∧ L.lastPaymentTime = now) ∧
    (∃ L : Lease,
      Contracts.confirmLease sC.owner now₂ sC = .ok ({ sC with lease := L }, []) ∧
      L.startTime = now₂ ∧ L.lastPaymentTime = sC.lease.lastPaymentTime) := by
  constructor
  · refine ⟨{ sH.lease with active := true, startTime := now, lastPaymentTime := now },
      ?_, rfl, rfl⟩
    unfold Hardened.confirmLease
    simp [hexH, hactH, hpl, hdl]
  · refine ⟨{ sC.lease with active := true, startTime := now₂ }, ?_, rfl, rfl⟩
    unfold Contracts.confirmLease
    simp [hexC, hactC]

/-- C9 witness: the two confirms evaluated at time 50 on the pending
hardened and contracts states. -/
theorem c9_witness :
    (∃ L : Lease,
      Hardened.confirmLease 1 50 hstPending = .ok ({ hstPending with lease := L }, []) ∧
      L.startTime = 50 ∧ L.lastPaymentTime = 50) ∧
    (∃ L : Lease,
      Contracts.confirmLease 1 50 Contracts.stPending =
        .ok ({ Contracts.stPending with lease := L }, []) ∧
      L.startTime = 50 ∧
      L.lastPaymentTime = Contracts.stPending.lease.lastPaymentTime) :=
  c9_confirm_timestamps 50 50 hstPending Contracts.stPending rfl rfl (by decide)
    (by decide) rfl rfl

/-- C10: a reveal with zero monthly payment and zero attached value
succeeds against any matching live commitment when the slot has no
lease, creating a pending lease with zero monthly payment and zero
deposit; from the resulting state, no later reachable state ever lets
`refundUnconfirmedDeposit` succeed: the record keeps existing with a
zero deposit forever, and the refund's "No deposit to refund" guard (or
an earlier guard) always rejects. -/
theorem c10_zero_deposit_lease (hashFn : Nat → Nat → Nat → Nat)
    (sender now tokenId secret dm : Nat) (s : SlotState)
    (hm : s.tokenMinted = true) (ho : s.contractOwnsToken = true)
    (hdl : now ≤ s.commit.deadline)
    (hhash : hashFn tokenId secret sender = s.commit.commitment)
    (hlex : s.lease.lexists = false) :
    ∃ s₁ : SlotState,
      Contracts.revealAndPay hashFn sender now 0 tokenId secret dm 0 s = .ok (s₁, []) ∧
      s₁.lease.lexists = true ∧ s₁.lease.active = false ∧
      s₁.lease.deposit = 0 ∧ s₁.lease.monthlyPayment = 0 ∧
      ∀ t₂ s₂, Contracts.ReachFrom hashFn now s₁ t₂ s₂ →
        ∀ sender₂ now₂ r, ¬ Contracts.refundUnconfirmedDeposit sender₂ now₂ s₂ = .ok r := by
  refine ⟨{ s with
      lease := { lessee := sender, startTime := 0, durationMonths := dm,
                 monthlyPayment := 0, deposit := 0, paymentsMade := 0,
                 lastPaymentTime := 0, active := false, lexists := true,
                 confirmDeadline := now + CONFIRM_WINDOW }
      commit := Commit.empty }, ?_, rfl, rfl, rfl, rfl, ?_⟩
  · unfold Contracts.revealAndPay
    simp [hm, ho, hdl, hhash, hlex]
  · intro t₂ s₂ hr sender₂ now₂ r
    exact Contracts.refund_fails_of_zero_deposit
      (Contracts.reachFrom_zero_deposit hr ⟨rfl, rfl⟩).2 sender₂ now₂ r

/-- C10 witness: instantiated on the reachable committed slot. -/
theorem c10_witness :
    ∃ s₁ : SlotState,
      Contracts.revealAndPay hf0 2 0 0 0 0 12 0 Contracts.stCommitted = .ok (s₁, []) ∧
      s₁.lease.lexists = true ∧ s₁.lease.active = false ∧
      s₁.lease.deposit = 0 ∧ s₁.lease.monthlyPayment = 0 ∧
      ∀ t₂ s₂, Contracts.ReachFrom hf0 0 s₁ t₂ s₂ →
        ∀ sender₂ now₂ r, ¬ Contracts.refundUnconfirmedDeposit sender₂ now₂ s₂ = .ok r :=
  c10_zero_deposit_lease hf0 2 0 0 0 12 Contracts.stCommitted rfl rfl (by decide)
    (by decide) rfl

end CarLease
